import Mathlib

/-!
Shallow embedding of the notebook helper functions of the repository
(`functions/setup_authentication.py`, `functions/initialize_client.py`,
`functions/extract_table.py`, `functions/call_openai.py`,
`functions/get_latest_file.py`).

External effects (filesystem tests, path resolution, client construction,
query execution, the remote completion endpoint) are modelled as explicit
state/world records whose fields supply the outcomes of the corresponding
library calls; the control flow, validation order, exception classification
and messages are translated line by line from the Python source.
-/

/-- Python exception values that occur in this repository, by class.
`runtimeError` carries the `from e` cause.  `apiNotFound`, `apiForbidden`
and `apiError` stand for `google.api_core.exceptions.NotFound`, `.Forbidden`
and any other `GoogleAPIError`; `otherExc` is any other `Exception`. -/
inductive PyExc where
  | valueError (msg : String)
  | fileNotFoundError (msg : String)
  | permissionError (msg : String)
  | notADirectoryError (msg : String)
  | runtimeError (msg : String) (cause : Option PyExc)
  | apiNotFound (msg : String)
  | apiForbidden (msg : String)
  | apiError (msg : String)
  | otherExc (msg : String)

/-- Python `str(e)` for an exception raised with a single message argument. -/
def PyExc.str : PyExc → String
  | .valueError m => m
  | .fileNotFoundError m => m
  | .permissionError m => m
  | .notADirectoryError m => m
  | .runtimeError m _ => m
  | .apiNotFound m => m
  | .apiForbidden m => m
  | .apiError m => m
  | .otherExc m => m

/-- The process environment (`os.environ`), an association list. -/
def Env := List (String × String)

/-- `os.environ[k] = v`: mapping update. -/
def envSet (e : Env) (k v : String) : Env :=
  (k, v) :: e.eraseP (fun p => p.1 == k)

/-- `os.environ.get(k)`. -/
def envGet (e : Env) (k : String) : Option String :=
  (e.find? (fun p => p.1 == k)).map (fun p => p.2)

/-- Operating-system state and primitives used by the helpers:
`abspath` is `os.path.abspath`, `pathExists` is `os.path.exists`,
`readable` is `os.access(·, os.R_OK)`, `writable` is `os.access(·, os.W_OK)`,
`env` is the process environment. -/
structure OS where
  abspath : String → String
  pathExists : String → Bool
  readable : String → Bool
  writable : String → Bool
  env : Env

/-- Truthiness of an `Optional[str]` argument (`if x:` in Python). -/
def truthyOpt : Option String → Bool
  | some s => s ≠ ""
  | none => false

/-- `setup_authentication(key_path, env_var)` from
`functions/setup_authentication.py`.  Returns the (possibly raised)
outcome together with the operating-system state after the call; on every
error path the state is returned untouched, mirroring that the Python code
raises before reaching the environment assignment. -/
def setup_authentication (os : OS) (key_path : String) (env_var : Option String) :
    Except PyExc Unit × OS :=
  if key_path = "" then
    (.error (.valueError "Le chemin du fichier de clé doit être une chaîne non vide"), os)
  else
    let kp := os.abspath key_path
    if os.pathExists kp = false then
      (.error (.fileNotFoundError ("Fichier de clé introuvable : " ++ kp)), os)
    else
      match env_var with
      | some v => if v ≠ "" then (.ok (), { os with env := envSet os.env v kp }) else (.ok (), os)
      | none => (.ok (), os)

/-- Concrete OS state for witnesses: every path exists, is readable and
writable, and absolute resolution prepends `/abs`. -/
def osAll : OS :=
  { abspath := fun s => "/abs" ++ s
    pathExists := fun _ => true
    readable := fun _ => true
    writable := fun _ => true
    env := [] }

/-- Concrete OS state where no path exists. -/
def osNoFile : OS := { osAll with pathExists := fun _ => false }

/-- Parameters assembled for `bigquery.Client(**client_params)`:
project, fixed location, and whether explicit service-account credentials
were attached. -/
structure ClientParams where
  project : String
  location : String
  hasCredentials : Bool

/-- External outcomes needed by `initialize_bigquery_client`:
`loadCreds` models `service_account.Credentials.from_service_account_file`,
`construct` models `bigquery.Client(**client_params)`. -/
structure InitWorld where
  os : OS
  loadCreds : String → Except PyExc Unit
  construct : ClientParams → Except PyExc Unit

/-- Observable outcome of `initialize_bigquery_client`:
`res` is `.ok ()` when a client is returned to the caller and `.error e`
when `e` propagates; `clientBuilt` records whether the local `client`
variable was bound to a constructed client (non-`None`);
`constructAttempted` records whether `bigquery.Client(...)` was called;
`closeCalled` records whether the `finally` block invoked `client.close()`;
`os` is the OS state after the call. -/
structure InitResult where
  res : Except PyExc Unit
  clientBuilt : Bool
  constructAttempted : Bool
  closeCalled : Bool
  os : OS

/-- The `except` chain of `initialize_bigquery_client` (lines 65-76):
`NotFound`, `Forbidden` and other `GoogleAPIError`s get dedicated
`RuntimeError` messages; every other exception — including `ValueError`,
`FileNotFoundError` and `PermissionError` from the credential path — falls
into the generic `except Exception` and is wrapped. -/
def wrapInitExc (project_id : String) (e : PyExc) : PyExc :=
  match e with
  | .apiNotFound _ =>
      .runtimeError ("Projet " ++ project_id ++ " introuvable ou accès refusé") (some e)
  | .apiForbidden _ =>
      .runtimeError "Erreur d\x27authentification, vérifiez vos identifiants" (some e)
  | .apiError m =>
      .runtimeError ("Erreur API BigQuery : " ++ m) (some e)
  | _ =>
      .runtimeError ("Échec de l\x27initialisation du client BigQuery : " ++ e.str) (some e)

/-- The body of the `try` block of `initialize_bigquery_client`
(lines 46-63): credential setup, readability check, credential loading,
then client construction.  Returns the raw (unwrapped) outcome, whether
the client was built, whether construction was attempted, and the OS
state. -/
def initTry (w : InitWorld) (project_id : String)
    (credentials_path env_var : Option String) :
    Except PyExc Unit × Bool × Bool × OS :=
  if truthyOpt credentials_path then
    let cp := credentials_path.getD ""
    match setup_authentication w.os cp env_var with
    | (.error e, os1) => (.error e, false, false, os1)
    | (.ok _, os1) =>
      if os1.readable cp = false then
        (.error (.permissionError ("Fichier de clé " ++ cp ++ " non lisible")), false, false, os1)
      else
        match w.loadCreds cp with
        | .error e => (.error e, false, false, os1)
        | .ok _ =>
          match w.construct ⟨project_id, "US", true⟩ with
          | .error e => (.error e, false, true, os1)
          | .ok _ => (.ok (), true, true, os1)
  else
    match w.construct ⟨project_id, "US", false⟩ with
    | .error e => (.error e, false, true, w.os)
    | .ok _ => (.ok (), true, true, w.os)

/-- `initialize_bigquery_client(project_id, credentials_path, env_var, auto_close)`
from `functions/initialize_client.py`.  The `finally` clause closes the
client whenever `auto_close` is set and the local `client` is a constructed
client — which in the source is the case exactly when construction
succeeded, since `client` is still `None` on every raising path. -/
def initialize_bigquery_client (w : InitWorld) (project_id : String)
    (credentials_path env_var : Option String) (auto_close : Bool) : InitResult :=
  if project_id = "" then
    { res := .error (.valueError "L\x27identifiant du projet doit être une chaîne non vide")
      clientBuilt := false, constructAttempted := false, closeCalled := false, os := w.os }
  else
    match initTry w project_id credentials_path env_var with
    | (tryRes, built, att, os1) =>
      { res := match tryRes with
          | .ok _ => .ok ()
          | .error e => .error (wrapInitExc project_id e)
        clientBuilt := built
        constructAttempted := att
        closeCalled := auto_close && built
        os := os1 }

/-- Worlds for the client-initializer theorems: construction succeeds /
construction raises a generic API error / the key file does not exist /
the key file exists but is unreadable. -/
def initOkWorld : InitWorld :=
  { os := osAll, loadCreds := fun _ => .ok (), construct := fun _ => .ok () }

def initFailWorld : InitWorld :=
  { os := osAll, loadCreds := fun _ => .ok (), construct := fun _ => .error (.apiError "boom") }

def initMissingKeyWorld : InitWorld :=
  { os := osNoFile, loadCreds := fun _ => .ok (), construct := fun _ => .ok () }

def initUnreadableWorld : InitWorld :=
  { os := { osAll with readable := fun _ => false }
    loadCreds := fun _ => .ok ()
    construct := fun _ => .ok () }

/-- `MAX_DATA_SIZE_GB` from `functions/extract_table.py` (line 18). -/
def MAX_DATA_SIZE_GB : Nat := 2

/-- `MAX_DATA_SIZE_BYTES = MAX_DATA_SIZE_GB * 1024**3` (line 19). -/
def MAX_DATA_SIZE_BYTES : Nat := MAX_DATA_SIZE_GB * 1024 ^ 3

/-- The pandas `DataFrame` produced by `query_job.to_dataframe(...)`:
column names, rows of cell values, and the value of
`df.memory_usage(deep=True).sum()` as reported by pandas. -/
structure DataFrame where
  columns : List String
  rows : List (List String)
  memBytes : Nat

/-- External outcomes needed by `extract_table`: the initializer world (its
`os` is also the process OS used for the directory checks), the outcome of
`client.query(...)` followed by `to_dataframe` (an exception anywhere in
the `try` block, or the resulting frame), and `datetime.now().strftime(...)`. -/
structure ExtractWorld where
  initW : InitWorld
  queryRes : Except PyExc DataFrame
  now : String

/-- Observable outcome of `extract_table`: the returned value
(`.ok (some path)` for a written file, `.ok none` for the not-written
sentinel, `.error e` when `e` propagates) together with the file written by
`df.to_csv` — its path and its content as a header row followed by the data
rows (`index=False`). -/
structure ExtractResult where
  res : Except PyExc (Option String)
  written : Option (String × List (List String))

/-- Output file name built at lines 92-93 of `functions/extract_table.py`:
`os.path.join(output_dir, f"{table_name}{...}.csv")` with an optional
`_timestamp` inserted when the timestamp string is non-empty. -/
def outputFileName (output_dir table_name : String) (suffix_timestamp : Bool)
    (now : String) : String :=
  let ts := if suffix_timestamp then now else ""
  output_dir ++ "/" ++ table_name ++ (if ts ≠ "" then "_" ++ ts else "") ++ ".csv"

/-- The `except` chain of the query `try` block (lines 137-149):
`Forbidden` is converted to the not-written sentinel; any other
`GoogleAPIError` (including `NotFound`) becomes
`RuntimeError("Erreur API BigQuery : ...")`; any other exception becomes
`RuntimeError("Échec de l'extraction pour <table> : ...")`.  The result is
`.ok none` or the wrapped error; nothing is written on any of these paths. -/
def wrapQueryExc (table_name : String) (e : PyExc) : Except PyExc (Option String) :=
  match e with
  | .apiForbidden _ => .ok none
  | .apiNotFound m => .error (.runtimeError ("Erreur API BigQuery : " ++ m) (some e))
  | .apiError m => .error (.runtimeError ("Erreur API BigQuery : " ++ m) (some e))
  | _ => .error (.runtimeError
      ("Échec de l\x27extraction pour " ++ table_name ++ " : " ++ e.str) (some e))

/-- `extract_table(query, table_name, output_dir, client, project_id,
credentials_path, env_var, suffix_timestamp, export_empty,
maximum_bytes_billed, limit_bytes)` from `functions/extract_table.py`.
`clientGiven` models passing an existing client; `maximum_bytes_billed`
only configures the job (its server-side effect is reflected in
`w.queryRes`), matching the source where it is written into `job_config`
and logged but not otherwise read. -/
def extract_table (w : ExtractWorld) (query table_name output_dir : String)
    (clientGiven : Bool) (project_id credentials_path env_var : Option String)
    (suffix_timestamp : Bool) (export_empty : Bool)
    (maximum_bytes_billed : Option Int) (limit_bytes : Bool) : ExtractResult :=
  let _ := maximum_bytes_billed
  if query = "" then
    ⟨.error (.valueError "La requête SQL doit être une chaîne non vide"), none⟩
  else if table_name = "" then
    ⟨.error (.valueError "Le nom de la table doit être une chaîne non vide"), none⟩
  else if output_dir = "" then
    ⟨.error (.valueError "Le dossier de sortie doit être une chaîne non vide"), none⟩
  else if w.initW.os.writable output_dir = false then
    ⟨.error (.permissionError ("Pas de droits d\x27écriture dans le dossier : " ++ output_dir)), none⟩
  else
    let clientStep : Except PyExc Unit :=
      if clientGiven then .ok ()
      else if truthyOpt project_id = false then
        .error (.valueError "L\x27identifiant du projet est requis si aucun client n\x27est fourni")
      else
        match (initialize_bigquery_client w.initW (project_id.getD "")
                credentials_path env_var false).res with
        | .error e => .error (.runtimeError ("Erreur d\x27initialisation du client : " ++ e.str) (some e))
        | .ok _ => .ok ()
    match clientStep with
    | .error e => ⟨.error e, none⟩
    | .ok _ =>
      let output_file := outputFileName output_dir table_name suffix_timestamp w.now
      match w.queryRes with
      | .error e => ⟨wrapQueryExc table_name e, none⟩
      | .ok df =>
        if limit_bytes = true ∧ df.memBytes > MAX_DATA_SIZE_BYTES then
          ⟨.ok none, none⟩
        else if df.rows.isEmpty && !export_empty then
          ⟨.ok none, none⟩
        else
          ⟨.ok (some output_file), some (output_file, df.columns :: df.rows)⟩

/-- Concrete frames and worlds for the export-routine witnesses. -/
def bigFrame : DataFrame := { columns := ["a"], rows := [["1"]], memBytes := 3 * 1024 ^ 3 }

def emptyFrame : DataFrame := { columns := ["a", "b"], rows := [], memBytes := 64 }

def extractWorldOf (r : Except PyExc DataFrame) : ExtractWorld :=
  { initW := initOkWorld, queryRes := r, now := "20240101_000000" }

/-- Substring containment on character lists: `charsContain k l` is `true`
exactly when `k` occurs contiguously inside `l`. -/
def charsContain (k : List Char) : List Char → Bool
  | [] => k.isEmpty
  | c :: rest => k.isPrefixOf (c :: rest) || charsContain k rest

/-- Python values as passed to `call_openai_api`: strings, ints, bools
(which are `int` instances in Python), `None`, and any other object with
the given truthiness (e.g. a float or a list). -/
inductive PyVal where
  | pyStr (s : String)
  | pyInt (n : Int)
  | pyBool (b : Bool)
  | pyNone
  | pyOther (truthy : Bool)

/-- Python truthiness (`if not x`). -/
def PyVal.truthy : PyVal → Bool
  | .pyStr s => s ≠ ""
  | .pyInt n => n ≠ 0
  | .pyBool b => b
  | .pyNone => false
  | .pyOther t => t

/-- `isinstance(x, str)`. -/
def PyVal.isStr : PyVal → Bool
  | .pyStr _ => true
  | _ => false

/-- `isinstance(x, int)`; true for `bool` as well, since Python's `bool`
subclasses `int`. -/
def PyVal.isInt : PyVal → Bool
  | .pyInt _ => true
  | .pyBool _ => true
  | _ => false

/-- Numeric value of an `int`-like Python value (`True == 1`, `False == 0`);
`0` for the other constructors, which the code never compares. -/
def PyVal.asInt : PyVal → Int
  | .pyInt n => n
  | .pyBool b => if b then 1 else 0
  | _ => 0

/-- The API key hardcoded at line 39 of `functions/call_openai.py`. -/
def openai_api_key : String :=
  "GJyIapLqFpG0FtWbxOyulHaHTm6Jto0YRN91YCLyiHQ7GTUkuGDMJQQJ99BCAC5T7U2XJ3w3AAABACOGo2Pg"

/-- The endpoint hardcoded at line 40 of `functions/call_openai.py`. -/
def azure_endpoint : String := "https://instancehackatonpionners01.openai.azure.com/"

/-- Outcome of the remote chat-completion call, by handled exception
class: success with the reply text, `AuthenticationError`,
`RateLimitError`, `APIConnectionError`, other `APIError`, or any other
exception. -/
inductive ApiOutcome where
  | success (reply : String)
  | authError
  | rateLimit
  | connError
  | apiErr (msg : String)
  | otherErr (msg : String)

/-- External outcomes needed by `call_openai_api`: construction of the
`AzureOpenAI` client (which may raise `ValueError`), and the completion
request itself. -/
structure OpenAIWorld where
  clientInit : Except String Unit
  apiCall : ApiOutcome

/-- Observable outcome of `call_openai_api`: the returned string (reply or
error message — the function catches every exception and never raises),
whether `AzureOpenAI(...)` construction was attempted, and whether the
completion request was sent over the network. -/
structure CallResult where
  ret : String
  clientAttempted : Bool
  requestSent : Bool

/-- `call_openai_api(prompt, max_tokens, ...)` from
`functions/call_openai.py`, with the default `model` and `api_version`
(which do not influence the modelled control flow). -/
def call_openai_api (w : OpenAIWorld) (prompt max_tokens : PyVal) : CallResult :=
  if !prompt.truthy || !prompt.isStr then
    ⟨"Erreur : Le prompt est vide ou invalide.", false, false⟩
  else if !max_tokens.isInt || max_tokens.asInt ≤ 0 || max_tokens.asInt > 4096 then
    ⟨"Erreur : max_tokens doit être un entier positif inférieur à 4096.", false, false⟩
  else if openai_api_key = "" then
    ⟨"Erreur : La clé API est manquante. Configurez AZURE_OPENAI_API_KEY.", false, false⟩
  else if !("https://".data.isPrefixOf azure_endpoint.data) then
    ⟨"Erreur : Endpoint Azure invalide.", false, false⟩
  else
    match w.clientInit with
    | .error m => ⟨"Erreur : Initialisation du client impossible (" ++ m ++ ").", true, false⟩
    | .ok _ =>
      match w.apiCall with
      | .success reply => ⟨reply, true, true⟩
      | .authError => ⟨"Erreur : Clé API invalide ou problème d\x27authentification.", true, true⟩
      | .rateLimit => ⟨"Erreur : Limite de taux dépassée. Réessayez plus tard.", true, true⟩
      | .connError => ⟨"Erreur : Impossible de se connecter à l\x27API Azure OpenAI.", true, true⟩
      | .apiErr m => ⟨"Erreur : Problème avec l\x27API Azure OpenAI (" ++ m ++ ").", true, true⟩
      | .otherErr m => ⟨"Erreur inattendue lors de l\x27appel à l\x27API : " ++ m ++ ".", true, true⟩

/-- Concrete completion world for the C6 witness. -/
def openaiWorld0 : OpenAIWorld := { clientInit := .ok (), apiCall := .success "ok" }

/-- One step of scanning for `os.path.basename`: a `/` resets the
accumulated final component. -/
def bnStep (a : List Char) (c : Char) : List Char := if c = '/' then [] else a ++ [c]

/-- Characters after the last `/` of the list. -/
def basenameChars (l : List Char) : List Char := l.foldl bnStep []

/-- `os.path.basename`. -/
def basename (s : String) : String := ⟨basenameChars s.data⟩

/-- `os.path.join(d, f)` for a directory path without trailing separator
and a relative member name, the shapes this code produces. -/
def pathJoin (d f : String) : String := d ++ "/" ++ f

/-- The single directory inspected by `get_latest_file_by_keyword`:
whether the path is a directory (`os.path.isdir`), whether it is readable
(`os.access(·, os.R_OK)`), and its entries as pairs of base filename and
modification time (`os.path.getmtime`). -/
structure DirWorld where
  isDir : Bool
  readable : Bool
  entries : List (String × Nat)

/-- Whether a string starts with a dot (`s.startswith(".")`); on a file
name this is also glob's hidden-file test. -/
def startsWithDot (s : String) : Bool :=
  match s.data with
  | '.' :: _ => true
  | _ => false

/-- Whether a base filename matches the glob pattern `*{keyword}*{extension}`:
not a hidden file (glob's `*` never matches a leading dot), ends with the
extension, and contains the keyword before the trailing extension. -/
def globMatch (keyword extension name : String) : Bool :=
  !startsWithDot name
    && extension.data.isSuffixOf name.data
    && charsContain keyword.data (name.data.take (name.data.length - extension.data.length))

/-- The entries of the directory matched by `glob.glob(pattern)`. -/
def globMatching (w : DirWorld) (keyword extension : String) : List (String × Nat) :=
  w.entries.filter (fun f => globMatch keyword extension f.1)

/-- Python's `max(xs, key=...)` over mtimes: keeps the first element among
ties, replaces only on a strictly larger key. -/
def pyMax (best : String × Nat) : List (String × Nat) → String × Nat
  | [] => best
  | f :: fs => pyMax (if f.2 > best.2 then f else best) fs

/-- `get_latest_file_by_keyword(keyword, directory, extension)` from
`functions/get_latest_file.py`. -/
def get_latest_file_by_keyword (w : DirWorld) (keyword directory extension : String) :
    Except PyExc (Option String) :=
  if keyword = "" then
    .error (.valueError "Le mot-clé doit être une chaîne non vide.")
  else if extension = "" ∨ startsWithDot extension = false then
    .error (.valueError "L\x27extension doit commencer par un point (ex: \x27.csv\x27, \x27.json\x27).")
  else if w.isDir = false then
    .error (.notADirectoryError ("Le dossier spécifié n\x27existe pas : " ++ directory))
  else if w.readable = false then
    .error (.permissionError ("Dossier non lisible : " ++ directory))
  else
    match (globMatching w keyword extension).map (fun f => (pathJoin directory f.1, f.2)) with
    | [] => .ok none
    | f :: fs => .ok (some (basename (pyMax f fs).1))

/-- Directory of the end-to-end scenario: `sales_20240101.csv` (older) and
`sales_20240201.csv` (newer). -/
def salesDir : DirWorld :=
  { isDir := true
    readable := true
    entries := [("sales_20240101.csv", 100), ("sales_20240201.csv", 200)] }


theorem envGet_envSet (e : Env) (k v : String) : envGet (envSet e k v) k = some v := by
  simp [envGet, envSet, List.find?]

/-- Claim C7: for an existing credential file path, `setup_authentication`
resolves it to an absolute path; when a destination environment-variable
name is supplied that variable equals the absolute path afterwards, and
when none is supplied the environment (indeed the whole OS state) is left
unchanged. -/
theorem setup_authentication_env_effect (os : OS) (key_path : String)
    (hk : key_path ≠ "") (hex : os.pathExists (os.abspath key_path) = true) :
    (∀ v : String, v ≠ "" →
        setup_authentication os key_path (some v)
          = (.ok (), { os with env := envSet os.env v (os.abspath key_path) })
        ∧ envGet (envSet os.env v (os.abspath key_path)) v = some (os.abspath key_path))
    ∧ setup_authentication os key_path none = (.ok (), os) := by
  constructor
  · intro v hv
    constructor
    · simp [setup_authentication, hk, hex, hv]
    · exact envGet_envSet os.env v (os.abspath key_path)
  · simp [setup_authentication, hk, hex]

/-- Witness for claim C7 at the concrete path `/k.json` and variable `GOOGLE_APPLICATION_CREDENTIALS`. -/
theorem setup_authentication_env_effect_witness :
    setup_authentication osAll "/k.json" (some "GOOGLE_APPLICATION_CREDENTIALS")
      = (.ok (), { osAll with
          env := envSet osAll.env "GOOGLE_APPLICATION_CREDENTIALS" "/abs/k.json" })
    ∧ envGet (envSet osAll.env "GOOGLE_APPLICATION_CREDENTIALS" "/abs/k.json")
        "GOOGLE_APPLICATION_CREDENTIALS" = some "/abs/k.json"
    ∧ setup_authentication osAll "/k.json" none = (.ok (), osAll) := by
  have h := setup_authentication_env_effect osAll "/k.json" (by decide) (by rfl)
  exact ⟨(h.1 "GOOGLE_APPLICATION_CREDENTIALS" (by decide)).1,
         (h.1 "GOOGLE_APPLICATION_CREDENTIALS" (by decide)).2, h.2⟩

/-- Claim C8: for a credential path whose resolved absolute path does not
exist, `setup_authentication` raises `FileNotFoundError` and the OS state
(in particular the environment) is unchanged. -/
theorem setup_authentication_missing_file (os : OS) (key_path : String)
    (env_var : Option String) (hk : key_path ≠ "")
    (hmiss : os.pathExists (os.abspath key_path) = false) :
    setup_authentication os key_path env_var
      = (.error (.fileNotFoundError ("Fichier de clé introuvable : " ++ os.abspath key_path)), os) := by
  simp [setup_authentication, hk, hmiss]

/-- Witness for claim C8 at the concrete path `/k.json`. -/
theorem setup_authentication_missing_file_witness :
    setup_authentication osNoFile "/k.json" (some "V")
      = (.error (.fileNotFoundError ("Fichier de clé introuvable : " ++ "/abs/k.json")), osNoFile) :=
  setup_authentication_missing_file osNoFile "/k.json" (some "V") (by decide) rfl

/-- Claim C1 (counter-evidence, code bug): with `auto_close = true`, when
construction fully succeeds the routine closes the client it is about to
return (the `finally` clause fires on the success path), and when
construction raises no close happens at all (`client` is still `None`), so
the close-on-error contract of the docstring is never honoured. -/
theorem initialize_client_auto_close_bug :
    ((initialize_bigquery_client initOkWorld "proj" none none true).res = .ok ()
      ∧ (initialize_bigquery_client initOkWorld "proj" none none true).closeCalled = true)
    ∧ ((initialize_bigquery_client initFailWorld "proj" none none true).res
          = .error (.runtimeError "Erreur API BigQuery : boom" (some (.apiError "boom")))
      ∧ (initialize_bigquery_client initFailWorld "proj" none none true).closeCalled = false) :=
  ⟨⟨rfl, rfl⟩, ⟨rfl, rfl⟩⟩

/-- Claim C2 (counter-evidence, code bug): a missing credential file makes
`initialize_bigquery_client` raise `RuntimeError` wrapping the helper's
`FileNotFoundError` (not the `FileNotFoundError` itself), and an
existing-but-unreadable credential file makes it raise `RuntimeError`
wrapping the `PermissionError` (not the `PermissionError` itself); in both
cases client construction was never attempted. -/
theorem initialize_client_credential_errors_wrapped :
    ((initialize_bigquery_client initMissingKeyWorld "proj" (some "/k.json") none false).res
        = .error (.runtimeError
            ("Échec de l\x27initialisation du client BigQuery : Fichier de clé introuvable : /abs/k.json")
            (some (.fileNotFoundError "Fichier de clé introuvable : /abs/k.json")))
      ∧ (initialize_bigquery_client initMissingKeyWorld "proj" (some "/k.json") none false).constructAttempted
        = false)
    ∧ ((initialize_bigquery_client initUnreadableWorld "proj" (some "/k.json") none false).res
        = .error (.runtimeError
            ("Échec de l\x27initialisation du client BigQuery : Fichier de clé /k.json non lisible")
            (some (.permissionError "Fichier de clé /k.json non lisible")))
      ∧ (initialize_bigquery_client initUnreadableWorld "proj" (some "/k.json") none false).constructAttempted
        = false) :=
  ⟨⟨rfl, rfl⟩, ⟨rfl, rfl⟩⟩

/-- Claim C3: with byte-size limiting enabled, a result frame whose
estimated in-memory size exceeds `MAX_DATA_SIZE_BYTES` makes the export
routine return the not-written sentinel and write no file, for either value
of `export_empty`. -/
theorem extract_table_size_ceiling (w : ExtractWorld)
    (query table_name output_dir : String) (df : DataFrame)
    (suffix_timestamp export_empty : Bool) (mbb : Option Int)
    (hq : query ≠ "") (ht : table_name ≠ "") (ho : output_dir ≠ "")
    (hw : w.initW.os.writable output_dir = true)
    (hres : w.queryRes = .ok df)
    (hsize : df.memBytes > MAX_DATA_SIZE_BYTES) :
    extract_table w query table_name output_dir true none none none
        suffix_timestamp export_empty mbb true = ⟨.ok none, none⟩ := by
  simp [extract_table, hq, ht, ho, hw, hres, hsize]

/-- Witness for claim C3: a 3 GiB frame is rejected even with
`export_empty = true`. -/
theorem extract_table_size_ceiling_witness :
    extract_table (extractWorldOf (.ok bigFrame)) "SELECT 1" "events" "/out" true
        none none none true true none true = ⟨.ok none, none⟩ :=
  extract_table_size_ceiling (extractWorldOf (.ok bigFrame)) "SELECT 1" "events" "/out"
    bigFrame true true none (by decide) (by decide) (by decide) rfl rfl (by decide)

/-- Claim C5: a zero-row result frame within the size ceiling yields the
not-written sentinel and no file when `export_empty = false`, and a
header-only CSV (whose path is returned) when `export_empty = true`. -/
theorem extract_table_empty_result (w : ExtractWorld)
    (query table_name output_dir : String) (df : DataFrame)
    (suffix_timestamp : Bool) (mbb : Option Int)
    (hq : query ≠ "") (ht : table_name ≠ "") (ho : output_dir ≠ "")
    (hw : w.initW.os.writable output_dir = true)
    (hres : w.queryRes = .ok df)
    (hrows : df.rows = [])
    (hsize : df.memBytes ≤ MAX_DATA_SIZE_BYTES) :
    extract_table w query table_name output_dir true none none none
        suffix_timestamp false mbb true = ⟨.ok none, none⟩
    ∧ extract_table w query table_name output_dir true none none none
        suffix_timestamp true mbb true
      = ⟨.ok (some (outputFileName output_dir table_name suffix_timestamp w.now)),
         some (outputFileName output_dir table_name suffix_timestamp w.now, [df.columns])⟩ := by
  have hns : ¬ df.memBytes > MAX_DATA_SIZE_BYTES := Nat.not_lt.mpr hsize
  constructor
  · simp [extract_table, hq, ht, ho, hw, hres, hrows, hns]
  · simp [extract_table, hq, ht, ho, hw, hres, hrows, hns]

/-- Witness for claim C5 on a concrete zero-row frame with two columns. -/
theorem extract_table_empty_result_witness :
    extract_table (extractWorldOf (.ok emptyFrame)) "SELECT 1" "events" "/out" true
        none none none false false none true = ⟨.ok none, none⟩
    ∧ extract_table (extractWorldOf (.ok emptyFrame)) "SELECT 1" "events" "/out" true
        none none none false true none true
      = ⟨.ok (some "/out/events.csv"), some ("/out/events.csv", [["a", "b"]])⟩ :=
  extract_table_empty_result (extractWorldOf (.ok emptyFrame)) "SELECT 1" "events" "/out"
    emptyFrame false none (by decide) (by decide) (by decide) rfl rfl rfl (by decide)

/-- Claim C10: every `Forbidden` raised during query execution — whatever
its message, not only the billing-cap case — is converted to the
not-written sentinel without raising, and no file is written. -/
theorem extract_table_forbidden_always_swallowed (w : ExtractWorld)
    (query table_name output_dir msg : String)
    (suffix_timestamp export_empty limit_bytes : Bool) (mbb : Option Int)
    (hq : query ≠ "") (ht : table_name ≠ "") (ho : output_dir ≠ "")
    (hw : w.initW.os.writable output_dir = true)
    (hres : w.queryRes = .error (.apiForbidden msg)) :
    extract_table w query table_name output_dir true none none none
        suffix_timestamp export_empty mbb limit_bytes = ⟨.ok none, none⟩ := by
  simp [extract_table, hq, ht, ho, hw, hres, wrapQueryExc]

/-- Witness for claim C10 with a forbidden message that is a genuine
permission denial, not a billing-cap report. -/
theorem extract_table_forbidden_always_swallowed_witness :
    extract_table (extractWorldOf (.error (.apiForbidden "Access Denied: permission bigquery.tables.getData missing")))
        "SELECT 1" "events" "/out" true none none none false false none true
      = ⟨.ok none, none⟩ :=
  extract_table_forbidden_always_swallowed
    (extractWorldOf (.error (.apiForbidden "Access Denied: permission bigquery.tables.getData missing")))
    "SELECT 1" "events" "/out"
    "Access Denied: permission bigquery.tables.getData missing"
    false false true none (by decide) (by decide) (by decide) rfl rfl

/-- Claim C4 (counterexample): for a generic Google API error during query
execution, the raised `RuntimeError` message is
`"Erreur API BigQuery : <cause>"` — it does not contain the logical table
name (`"events"`), contrary to the claim that the message names the table. -/
theorem extract_table_api_error_message_lacks_table :
    (extract_table (extractWorldOf (.error (.apiError "boom"))) "SELECT 1" "events" "/out" true
        none none none false false none true).res
      = .error (.runtimeError "Erreur API BigQuery : boom" (some (.apiError "boom")))
    ∧ charsContain "events".data "Erreur API BigQuery : boom".data = false := by
  exact ⟨rfl, by decide⟩

/-- Claim C4 (amended): during query execution a `Forbidden` yields the
not-written sentinel without raising; any other Google API error
(`NotFound` included) is wrapped into a `RuntimeError` that carries the
original cause but whose message (`"Erreur API BigQuery : ..."`) names only
the cause, not the logical table; any other unexpected exception is wrapped
into a `RuntimeError` that does name the logical table and carries the
cause.  No file is written on any of these paths. -/
theorem extract_table_query_error_taxonomy (w : ExtractWorld)
    (query table_name output_dir m : String)
    (suffix_timestamp export_empty limit_bytes : Bool) (mbb : Option Int)
    (hq : query ≠ "") (ht : table_name ≠ "") (ho : output_dir ≠ "")
    (hw : w.initW.os.writable output_dir = true) :
    (w.queryRes = .error (.apiForbidden m) →
        extract_table w query table_name output_dir true none none none
          suffix_timestamp export_empty mbb limit_bytes = ⟨.ok none, none⟩)
    ∧ (w.queryRes = .error (.apiError m) →
        extract_table w query table_name output_dir true none none none
          suffix_timestamp export_empty mbb limit_bytes
        = ⟨.error (.runtimeError ("Erreur API BigQuery : " ++ m) (some (.apiError m))), none⟩)
    ∧ (w.queryRes = .error (.apiNotFound m) →
        extract_table w query table_name output_dir true none none none
          suffix_timestamp export_empty mbb limit_bytes
        = ⟨.error (.runtimeError ("Erreur API BigQuery : " ++ m) (some (.apiNotFound m))), none⟩)
    ∧ (w.queryRes = .error (.otherExc m) →
        extract_table w query table_name output_dir true none none none
          suffix_timestamp export_empty mbb limit_bytes
        = ⟨.error (.runtimeError ("Échec de l\x27extraction pour " ++ table_name ++ " : " ++ m)
             (some (.otherExc m))), none⟩) := by
  refine ⟨fun hres => ?_, fun hres => ?_, fun hres => ?_, fun hres => ?_⟩ <;>
    simp [extract_table, hq, ht, ho, hw, hres, wrapQueryExc, PyExc.str]

/-- Witness for the amended claim C4: the generic-API-error branch at a
concrete world, table name `events` and cause `boom`. -/
theorem extract_table_query_error_taxonomy_witness :
    extract_table (extractWorldOf (.error (.apiError "boom"))) "SELECT 1" "events" "/out" true
        none none none false false none true
      = ⟨.error (.runtimeError ("Erreur API BigQuery : " ++ "boom") (some (.apiError "boom"))), none⟩ :=
  (extract_table_query_error_taxonomy (extractWorldOf (.error (.apiError "boom")))
    "SELECT 1" "events" "/out" "boom" false false true none
    (by decide) (by decide) (by decide) rfl).2.1 rfl

/-- Claim C6: an empty or non-string prompt, or a token ceiling that is not
an integer or lies outside `(0, 4096]`, makes `call_openai_api` return a
descriptive error string with no client construction and no network
request (and, the return type being a plain result rather than an
exception, no raise); a token ceiling of exactly `4096` passes validation
and the call proceeds. -/
theorem call_openai_api_validation (w : OpenAIWorld) (prompt max_tokens : PyVal) :
    (¬ (prompt.truthy = true ∧ prompt.isStr = true) →
        call_openai_api w prompt max_tokens
          = ⟨"Erreur : Le prompt est vide ou invalide.", false, false⟩)
    ∧ (prompt.truthy = true → prompt.isStr = true →
        ¬ (max_tokens.isInt = true ∧ 0 < max_tokens.asInt ∧ max_tokens.asInt ≤ 4096) →
        call_openai_api w prompt max_tokens
          = ⟨"Erreur : max_tokens doit être un entier positif inférieur à 4096.", false, false⟩)
    ∧ (prompt.truthy = true → prompt.isStr = true →
        (call_openai_api w prompt (.pyInt 4096)).clientAttempted = true) := by
  refine ⟨fun h => ?_, fun hp hs h => ?_, fun hp hs => ?_⟩
  · rcases Decidable.not_and_iff_or_not.mp h with h1 | h1 <;>
      simp [call_openai_api, eq_false_of_ne_true h1]
  · have := Decidable.not_and_iff_or_not.mp h
    rcases this with h1 | h1
    · simp [call_openai_api, hp, hs, eq_false_of_ne_true h1]
    · rcases Decidable.not_and_iff_or_not.mp h1 with h2 | h2
      · have h3 : max_tokens.asInt ≤ 0 := le_of_not_lt h2
        simp only [call_openai_api, hp, hs, Bool.not_true, Bool.false_or]
        simp [h3]
      · have h3 : max_tokens.asInt > 4096 := lt_of_not_le h2
        simp only [call_openai_api, hp, hs, Bool.not_true, Bool.false_or]
        simp [h3, le_of_lt (by linarith : (0 : Int) < max_tokens.asInt)]
  · cases hinit : w.clientInit <;> cases hcall : w.apiCall <;>
      simp [call_openai_api, hp, hs, openai_api_key, azure_endpoint, hinit, hcall,
        PyVal.isInt, PyVal.asInt]

/-- Witness for claim C6: empty prompt, out-of-range ceiling `5000`, and
the accepted boundary ceiling `4096`, at a concrete world. -/
theorem call_openai_api_validation_witness :
    call_openai_api openaiWorld0 (.pyStr "") (.pyInt 100)
      = ⟨"Erreur : Le prompt est vide ou invalide.", false, false⟩
    ∧ call_openai_api openaiWorld0 (.pyStr "hello") (.pyInt 5000)
      = ⟨"Erreur : max_tokens doit être un entier positif inférieur à 4096.", false, false⟩
    ∧ (call_openai_api openaiWorld0 (.pyStr "hello") (.pyInt 4096)).clientAttempted = true :=
  ⟨(call_openai_api_validation openaiWorld0 (.pyStr "") (.pyInt 100)).1 (by decide),
   (call_openai_api_validation openaiWorld0 (.pyStr "hello") (.pyInt 5000)).2.1
      (by decide) (by decide) (by decide),
   (call_openai_api_validation openaiWorld0 (.pyStr "hello") (.pyInt 4096)).2.2
      (by decide) (by decide)⟩

theorem bnFold_no_slash (l a : List Char) (h : ∀ c ∈ l, c ≠ '/') :
    l.foldl bnStep a = a ++ l := by
  induction l generalizing a with
  | nil => simp
  | cons c rest ih =>
    have hc : c ≠ '/' := h c (List.mem_cons_self c rest)
    have hrec := ih (a ++ [c]) (fun d hd => h d (List.mem_cons_of_mem c hd))
    simp [List.foldl_cons, bnStep, hc, hrec]

theorem basename_pathJoin (d n : String) (h : ∀ c ∈ n.data, c ≠ '/') :
    basename (pathJoin d n) = n := by
  have hdata : (pathJoin d n).data = (d.data ++ ['/']) ++ n.data := by
    show (d ++ "/" ++ n).data = (d.data ++ ['/']) ++ n.data
    rfl
  have hbn : basenameChars (pathJoin d n).data = n.data := by
    rw [hdata]
    unfold basenameChars
    rw [List.foldl_append]
    have h1 : List.foldl bnStep [] (d.data ++ ['/']) = [] := by
      rw [List.foldl_append]
      simp [bnStep]
    rw [h1]
    simpa using bnFold_no_slash n.data [] h
  show (⟨basenameChars (pathJoin d n).data⟩ : String) = n
  rw [hbn]

theorem pyMax_spec (fs : List (String × Nat)) : ∀ f : String × Nat,
    pyMax f fs ∈ f :: fs ∧ ∀ g ∈ f :: fs, g.2 ≤ (pyMax f fs).2 := by
  induction fs with
  | nil =>
    intro f
    refine ⟨by simp [pyMax], ?_⟩
    intro g hg
    rw [List.mem_singleton] at hg
    rw [hg]
    simp [pyMax]
  | cons g gs ih =>
    intro f
    rw [pyMax]
    obtain ⟨hmem, hge⟩ := ih (if g.2 > f.2 then g else f)
    constructor
    · rcases List.mem_cons.mp hmem with h1 | h1
      · rw [h1]
        by_cases hgt : g.2 > f.2
        · simp only [hgt, if_pos]
          exact List.mem_cons_of_mem f (List.mem_cons_self g gs)
        · simp only [hgt, if_neg, not_false_iff]
          exact List.mem_cons_self f (g :: gs)
      · exact List.mem_cons_of_mem f (List.mem_cons_of_mem g h1)
    · intro x hx
      have hbf : f.2 ≤ (if g.2 > f.2 then g else f).2 := by
        split <;> omega
      have hbg : g.2 ≤ (if g.2 > f.2 then g else f).2 := by
        split <;> omega
      have htop := hge _ (List.mem_cons_self _ gs)
      rcases List.mem_cons.mp hx with h1 | h1
      · rw [h1]; exact le_trans hbf htop
      · rcases List.mem_cons.mp h1 with h2 | h2
        · rw [h2]; exact le_trans hbg htop
        · exact hge x (List.mem_cons_of_mem _ h2)

theorem pyMax_map_pathJoin (d : String) (f : String × Nat) (fs : List (String × Nat)) :
    pyMax (pathJoin d f.1, f.2) (fs.map (fun p => (pathJoin d p.1, p.2)))
      = (pathJoin d (pyMax f fs).1, (pyMax f fs).2) := by
  induction fs generalizing f with
  | nil => simp [pyMax]
  | cons g gs ih =>
    rw [List.map_cons, pyMax, pyMax]
    by_cases h : g.2 > f.2
    · simp only [h, if_pos]
      exact ih g
    · simp only [h, if_neg, not_false_iff]
      exact ih f

/-- Claim C9: the latest-file finder raises `ValueError` on an empty
keyword or an extension not starting with a dot, `NotADirectoryError` when
the directory does not exist, `PermissionError` when it is unreadable;
with no matching entry it returns the not-found sentinel; with matching
entries it returns the base filename of a match of maximal modification
time; and on the sales directory with keyword `sales` and extension
`.csv` it returns `sales_20240201.csv`. -/
theorem get_latest_file_spec :
    (∀ (w : DirWorld) (dir ext : String),
        get_latest_file_by_keyword w "" dir ext
          = .error (.valueError "Le mot-clé doit être une chaîne non vide."))
    ∧ (∀ (w : DirWorld) (k dir ext : String), k ≠ "" → startsWithDot ext = false →
        get_latest_file_by_keyword w k dir ext
          = .error (.valueError
              "L\x27extension doit commencer par un point (ex: \x27.csv\x27, \x27.json\x27)."))
    ∧ (∀ (w : DirWorld) (k dir ext : String), k ≠ "" → startsWithDot ext = true →
        w.isDir = false →
        get_latest_file_by_keyword w k dir ext
          = .error (.notADirectoryError ("Le dossier spécifié n\x27existe pas : " ++ dir)))
    ∧ (∀ (w : DirWorld) (k dir ext : String), k ≠ "" → startsWithDot ext = true →
        w.isDir = true → w.readable = false →
        get_latest_file_by_keyword w k dir ext
          = .error (.permissionError ("Dossier non lisible : " ++ dir)))
    ∧ (∀ (w : DirWorld) (k dir ext : String), k ≠ "" → startsWithDot ext = true →
        w.isDir = true → w.readable = true → globMatching w k ext = [] →
        get_latest_file_by_keyword w k dir ext = .ok none)
    ∧ (∀ (w : DirWorld) (k dir ext : String), k ≠ "" → startsWithDot ext = true →
        w.isDir = true → w.readable = true →
        (∀ f ∈ w.entries, ∀ c ∈ f.1.data, c ≠ '/') →
        globMatching w k ext ≠ [] →
        ∃ g ∈ globMatching w k ext,
          (∀ g2 ∈ globMatching w k ext, g2.2 ≤ g.2)
          ∧ get_latest_file_by_keyword w k dir ext = .ok (some g.1))
    ∧ get_latest_file_by_keyword salesDir "sales" "/data" ".csv"
        = .ok (some "sales_20240201.csv") := by
  have hext_ne : ∀ ext : String, startsWithDot ext = true → ext ≠ "" := by
    intro ext hdot hcontra
    rw [hcontra] at hdot
    exact absurd hdot (by decide)
  refine ⟨?_, ?_, ?_, ?_, ?_, ?_, ?_⟩
  · intro w dir ext
    simp [get_latest_file_by_keyword]
  · intro w k dir ext hk hdot
    simp [get_latest_file_by_keyword, hk, hdot]
  · intro w k dir ext hk hdot hdir
    simp [get_latest_file_by_keyword, hk, hdot, hext_ne ext hdot, hdir]
  · intro w k dir ext hk hdot hdir hread
    simp [get_latest_file_by_keyword, hk, hdot, hext_ne ext hdot, hdir, hread]
  · intro w k dir ext hk hdot hdir hread hempty
    simp [get_latest_file_by_keyword, hk, hdot, hext_ne ext hdot, hdir, hread, hempty]
  · intro w k dir ext hk hdot hdir hread hslash hne
    obtain ⟨f, fs, hfs⟩ : ∃ f fs, globMatching w k ext = f :: fs := by
      cases hcase : globMatching w k ext with
      | nil => exact absurd hcase hne
      | cons a l => exact ⟨a, l, rfl⟩
    have hmax := pyMax_spec fs f
    refine ⟨pyMax f fs, ?_, ?_, ?_⟩
    · rw [hfs]; exact hmax.1
    · intro g2 hg2; rw [hfs] at hg2; exact hmax.2 g2 hg2
    · have hmem_entries : pyMax f fs ∈ w.entries := by
        have h1 : pyMax f fs ∈ globMatching w k ext := by rw [hfs]; exact hmax.1
        exact List.mem_of_mem_filter h1
      have hnoslash : ∀ c ∈ (pyMax f fs).1.data, c ≠ '/' :=
        hslash (pyMax f fs) hmem_entries
      simp only [get_latest_file_by_keyword, hk, hext_ne ext hdot, hdot, hdir, hread]
      rw [if_neg (by simp [hk]), if_neg (by simp [hext_ne ext hdot, hdot]),
        if_neg (by simp [hdir]), if_neg (by simp [hread]), hfs]
      rw [List.map_cons]
      show Except.ok (some (basename (pyMax (pathJoin dir f.1, f.2)
        (fs.map (fun p => (pathJoin dir p.1, p.2)))).1)) = .ok (some (pyMax f fs).1)
      rw [pyMax_map_pathJoin]
      rw [basename_pathJoin dir (pyMax f fs).1 hnoslash]
  · rfl

/-- Witness for claim C9: the sales end-to-end scenario, plus the
not-a-directory condition at a concrete nonexistent directory. -/
theorem get_latest_file_spec_witness :
    get_latest_file_by_keyword salesDir "sales" "/data" ".csv"
        = .ok (some "sales_20240201.csv")
    ∧ get_latest_file_by_keyword ⟨false, true, []⟩ "sales" "/nodir" ".csv"
        = .error (.notADirectoryError ("Le dossier spécifié n\x27existe pas : " ++ "/nodir")) :=
  ⟨get_latest_file_spec.2.2.2.2.2.2,
   get_latest_file_spec.2.2.1 ⟨false, true, []⟩ "sales" "/nodir" ".csv"
     (by decide) (by decide) rfl⟩
